import Mathlib

/-!
Verification of the Personalization & Story-Intelligence Engine of the
AI-News-Feeder (NewsIQ) backend.

The Python services under backend/app are shallowly embedded here:

* vectors (numpy arrays / pgvector embeddings) become `List ℝ`;
* timestamps become `ℚ` (the unit is days for article/interaction
  timestamps and hours for cluster ages, matching how each source
  function consumes them; only differences and order are ever used);
* SQL result sets become Lean lists of records, with every WHERE
  condition translated to a filter, ORDER BY to an insertion sort on
  the ordering key, and LIMIT/OFFSET to `take`/`drop`;
* fallible or optional results become `Option`.

Each definition mirrors one function of the source tree; the doc
comment of a definition names the Python function it embeds.
-/

namespace NewsIQ

/-! ## Vector arithmetic (numpy operations used by the services) -/

/-- Pointwise addition of two vectors (numpy elementwise `+`). -/
def vadd (u v : List ℝ) : List ℝ := List.zipWith (· + ·) u v

/-- Scalar multiplication of a vector (numpy scalar `*`). -/
def smul (c : ℝ) (v : List ℝ) : List ℝ := v.map (fun x => c * x)

/-- Dot product of two vectors (`np.dot`). -/
def dot (u v : List ℝ) : ℝ := (List.zipWith (· * ·) u v).sum

/-- Euclidean norm of a vector (`np.linalg.norm`). -/
noncomputable def vnorm (v : List ℝ) : ℝ := Real.sqrt (dot v v)

/-- Sum of a list of vectors (numpy sum along axis 0). -/
def sumVecs : List (List ℝ) → List ℝ
  | [] => []
  | v :: vs => vs.foldl vadd v

/-- Mean of a list of vectors (`np.mean(, axis=0)`). -/
noncomputable def meanVecs (l : List (List ℝ)) : List ℝ :=
  smul (1 / (l.length : ℝ)) (sumVecs l)

/-- The literal `1e-10` used throughout the Python sources as a
division guard. -/
noncomputable def eps10 : ℝ := 1 / 10000000000

/-- Cosine distance as computed by pgvector's `<=>` operator:
`1 - dot(u, v) / (normu * normv)`. -/
noncomputable def pgCosineDistance (u v : List ℝ) : ℝ :=
  1 - dot u v / (vnorm u * vnorm v)

/-! ## Data model (backend/app/models) -/

/-- An article row, restricted to the fields the personalization and
research services read: `id`, `embedding`, `published_at`,
`fetched_at`, `source`, `source_credibility_score`, `title`, and the
transient `_is_blind_spot` attribute that `FeedRanker` attaches. -/
structure ArticleM where
  id : ℕ
  embedding : Option (List ℝ)
  publishedAt : ℚ
  fetchedAt : ℚ
  source : String
  cred : ℤ
  title : String
  isBlindSpot : Bool

/-- The embedding of an article, defaulting to the empty vector; the
services only call this after checking `embedding is not None`. -/
def embOf (a : ArticleM) : List ℝ := a.embedding.getD []

/-! ## Interleaving (FeedRanker._interleave_articles) -/

/-- `FeedRanker._interleave_articles`: the while-loop appends up to 3
articles from `main` and then up to 1 article from `diverse` per
iteration, until both lists are exhausted.  One loop iteration is one
unfolding: it consumes `main.take 3` and `diverse.take 1`. -/
def interleaveArticles (main diverse : List α) : List α :=
  if main.isEmpty && diverse.isEmpty then []
  else main.take 3 ++ diverse.take 1 ++
    interleaveArticles (main.drop 3) (diverse.drop 1)
termination_by main.length + diverse.length
decreasing_by
  rename_i h
  have h' : main ≠ [] ∨ diverse ≠ [] := by
    by_contra hc
    push_neg at hc
    simp [hc.1, hc.2] at h
  simp only [List.length_drop]
  rcases h' with h1 | h1
  · have := List.length_pos.mpr h1; omega
  · have := List.length_pos.mpr h1; omega

/-- One full iteration of the interleaving loop when at least 3 main
articles and 1 diverse article remain. -/
lemma interleave_cons_cons_cons (a b c x : α) (ms ds : List α) :
    interleaveArticles (a :: b :: c :: ms) (x :: ds)
      = a :: b :: c :: x :: interleaveArticles ms ds := by
  rw [interleaveArticles]
  simp

/-- With no diverse articles the loop returns the main list unchanged. -/
lemma interleave_right_nil (ms : List α) : interleaveArticles ms [] = ms := by
  have H : ∀ (n : ℕ) (l : List α), l.length ≤ n → interleaveArticles l [] = l := by
    intro n
    induction n with
    | zero =>
      intro l h
      have hl : l = [] := by cases l <;> simp_all
      subst hl
      rw [interleaveArticles]
      simp
    | succ n ih =>
      intro l h
      cases l with
      | nil => rw [interleaveArticles]; simp
      | cons a tl =>
        rw [interleaveArticles]
        have hd : ((a :: tl).drop 3).length ≤ n := by
          simp only [List.length_drop, List.length_cons]
          simp only [List.length_cons] at h
          omega
        simp only [List.isEmpty_cons, Bool.false_and, Bool.false_eq_true,
          if_false, List.take_nil, List.drop_nil, List.nil_append,
          List.append_nil, ih _ hd]
        exact List.take_append_drop 3 (a :: tl)
  exact H _ _ le_rfl

/-- With no main articles the loop returns the diverse list unchanged. -/
lemma interleave_left_nil (ds : List α) : interleaveArticles ([] : List α) ds = ds := by
  induction ds with
  | nil => rw [interleaveArticles]; simp
  | cons x tl ih =>
    rw [interleaveArticles]
    simpa using ih

/-- C2: for every pair of lists, `FeedRanker._interleave_articles`
emits 3 main articles then 1 diverse article per round, repeating
until both lists are exhausted and truncating partial groups at the
tail without padding (a missing diverse article or a short main group
is simply skipped); in particular with 9 main and 3 diverse articles
it produces exactly [m1,m2,m3,d1,m4,m5,m6,d2,m7,m8,m9,d3]. -/
theorem interleave_three_main_one_diverse :
    (∀ (α : Type) (a b c x : α) (ms ds : List α),
      interleaveArticles (a :: b :: c :: ms) (x :: ds)
        = a :: b :: c :: x :: interleaveArticles ms ds)
    ∧ (∀ (α : Type) (ms : List α), interleaveArticles ms [] = ms)
    ∧ (∀ (α : Type) (ds : List α), interleaveArticles [] ds = ds)
    ∧ interleaveArticles [1, 2, 3, 4, 5, 6, 7, 8, 9] [10, 11, 12]
        = [1, 2, 3, 10, 4, 5, 6, 11, 7, 8, 9, 12] := by
  refine ⟨fun α a b c x ms ds => interleave_cons_cons_cons a b c x ms ds,
    fun α ms => interleave_right_nil ms,
    fun α ds => interleave_left_nil ds, ?_⟩
  rw [interleave_cons_cons_cons, interleave_cons_cons_cons,
    interleave_cons_cons_cons, interleave_right_nil]

/-! ## Interest profiling (backend/app/services/personalization/user_modeling.py) -/

/-- One row of the interaction query in
`UserModeler.calculate_user_vector`: the interaction joined with its
article's embedding.  `ageDays` is `(now - created_at).days`. -/
structure InteractionRow where
  itype : String
  ageDays : ℕ
  readTime : Option ℤ
  embedding : Option (List ℝ)

/-- `INTERACTION_WEIGHTS` together with `_get_interaction_weight`'s
fallback of `1.0` for an unknown type. -/
def interactionWeight : String → ℝ
  | "deep_research" => 5
  | "bookmark" => 3
  | "upvote" => 2
  | "view" => 1
  | "downvote" => -2
  | "mute" => -5
  | _ => 1

/-- `UserModeler._calculate_time_decay`: `exp(-days_ago / half_life)`
where `days_ago` is the integer number of days. -/
noncomputable def timeDecay (ageDays : ℕ) (halfLife : ℕ) : ℝ :=
  Real.exp (-(ageDays : ℝ) / (halfLife : ℝ))

/-- The read-time boost in `calculate_user_vector`: `1.5` for a view
whose `read_time_seconds` is truthy and greater than 30, else `1.0`. -/
def readTimeBoost (r : InteractionRow) : ℝ :=
  if r.itype = "view" ∧ 30 < r.readTime.getD 0 then 1.5 else 1

/-- The `final_weight` of one interaction in `calculate_user_vector`. -/
noncomputable def rowWeight (r : InteractionRow) : ℝ :=
  interactionWeight r.itype * timeDecay r.ageDays 30 * readTimeBoost r

/-- `UserModeler.calculate_user_vector` after the interaction query:
skip rows without embedding, compute the per-row weights, divide them
by the sum of their absolute values plus `1e-10`, take
`np.average(embeddings, weights=...)` (which itself divides by the sum
of the weights it is given), and L2-normalize if the norm is
positive. -/
noncomputable def calculateUserVector (rows : List InteractionRow) : Option (List ℝ) :=
  if rows.isEmpty then none
  else
    let valid := rows.filter (fun r => r.embedding.isSome)
    if valid.isEmpty then none
    else
      let ws := valid.map rowWeight
      let embs := valid.map (fun r => r.embedding.getD [])
      let s := (ws.map (fun w => |w|)).sum + eps10
      let wsN := ws.map (fun w => w / s)
      let avg := smul (1 / wsN.sum) (sumVecs (List.zipWith smul wsN embs))
      if 0 < vnorm avg then some (smul (1 / vnorm avg) avg) else some avg

/-- Modelled from the spec: the reference definition of
`longTermVector` — the per-interaction weights are normalized by the
sum of their absolute values, the weighted average of the article
embeddings is taken with those normalized weights, and the result is
L2-normalized to unit length; `none` exactly when no qualifying
interaction exists. -/
noncomputable def calculateUserVectorSpec (rows : List InteractionRow) : Option (List ℝ) :=
  let qualifying := rows.filter (fun r => r.embedding.isSome)
  if qualifying.isEmpty then none
  else
    let ws := qualifying.map rowWeight
    let embs := qualifying.map (fun r => r.embedding.getD [])
    let wsN := ws.map (fun w => w / (ws.map (fun x => |x|)).sum)
    let v := sumVecs (List.zipWith smul wsN embs)
    some (smul (1 / vnorm v) v)

/-- The guarded L2 normalization used at the end of
`get_combined_user_vector`: divide by the norm only if it is
positive. -/
noncomputable def normalizeIfPos (v : List ℝ) : List ℝ :=
  if 0 < vnorm v then smul (1 / vnorm v) v else v

/-- `UserModeler.get_combined_user_vector`, combination stage: the
first operand is the resolved long-term vector (stored on the user or
freshly computed), the second is the session vector.  Both absent
gives `none`, one absent returns the other unmodified, both present
gives `0.7 * longTerm + 0.3 * session` normalized if its norm is
positive. -/
noncomputable def getCombinedUserVector (longTerm session : Option (List ℝ)) :
    Option (List ℝ) :=
  match longTerm, session with
  | none, none => none
  | none, some s => some s
  | some l, none => some l
  | some l, some s => some (normalizeIfPos (vadd (smul 0.7 l) (smul 0.3 s)))

/-- A user row, restricted to the fields touched by the
personalization services. -/
structure UserRecM where
  id : ℕ
  longTermEmbedding : Option (List ℝ)
  mutedSources : List String
  preferenceTopics : List String

/-- `UserModeler.update_user_long_term_vector`: recompute the user's
vector; if it is `none`, return `False` without touching storage,
otherwise store it on the user with the given id (`False` if no such
user). -/
noncomputable def updateUserLongTermVector (users : List UserRecM)
    (rows : List InteractionRow) (uid : ℕ) : Bool × List UserRecM :=
  match calculateUserVector rows with
  | none => (false, users)
  | some v =>
      if users.any (fun u => u.id == uid) then
        (true, users.map (fun u =>
          if u.id == uid then { u with longTermEmbedding := some v } else u))
      else (false, users)

/-! ## Vector-norm lemmas -/

lemma dot_smul_self (c : ℝ) (v : List ℝ) :
    dot (smul c v) (smul c v) = c ^ 2 * dot v v := by
  induction v with
  | nil => simp [dot, smul]
  | cons x xs ih =>
    simp only [smul, List.map_cons, dot, List.zipWith_cons_cons, List.sum_cons] at ih ⊢
    rw [ih]
    ring

lemma vnorm_smul (c : ℝ) (v : List ℝ) : vnorm (smul c v) = |c| * vnorm v := by
  unfold vnorm
  rw [dot_smul_self, Real.sqrt_mul (sq_nonneg c), Real.sqrt_sq_eq_abs]

lemma vnorm_normalizeIfPos (v : List ℝ) (h : 0 < vnorm v) :
    vnorm (normalizeIfPos v) = 1 := by
  rw [normalizeIfPos, if_pos h, vnorm_smul, abs_of_pos (by positivity)]
  field_simp

/-- C9: `combinedVector` returns the non-absent operand unmodified
when exactly one operand exists, `none` when both are absent, and
`0.7 * longTerm + 0.3 * session` re-normalized (to unit length
whenever the combination has positive norm) when both exist. -/
theorem combined_vector_cases :
    (∀ l : List ℝ, getCombinedUserVector (some l) none = some l)
    ∧ (∀ s : List ℝ, getCombinedUserVector none (some s) = some s)
    ∧ getCombinedUserVector none none = none
    ∧ (∀ l s : List ℝ, getCombinedUserVector (some l) (some s)
        = some (normalizeIfPos (vadd (smul 0.7 l) (smul 0.3 s))))
    ∧ (∀ l s : List ℝ, 0 < vnorm (vadd (smul 0.7 l) (smul 0.3 s)) →
        vnorm (normalizeIfPos (vadd (smul 0.7 l) (smul 0.3 s))) = 1) :=
  ⟨fun _ => rfl, fun _ => rfl, rfl, fun _ _ => rfl,
    fun _ _ h => vnorm_normalizeIfPos _ h⟩

/-- Witness for C9 at the concrete operands `[1,0]` and `[1,0]`. -/
theorem combined_vector_cases_witness :
    0 < vnorm (vadd (smul 0.7 [1, 0]) (smul 0.3 [1, 0]))
    ∧ vnorm (normalizeIfPos (vadd (smul 0.7 [1, 0]) (smul 0.3 [1, 0]))) = 1 := by
  have hv : vadd (smul (0.7 : ℝ) [1, 0]) (smul (0.3 : ℝ) [1, 0]) = [1, 0] := by
    norm_num [vadd, smul]
  have h1 : vnorm [(1 : ℝ), 0] = 1 := by
    norm_num [vnorm, dot, Real.sqrt_one]
  have hpos : 0 < vnorm (vadd (smul (0.7 : ℝ) [1, 0]) (smul (0.3 : ℝ) [1, 0])) := by
    rw [hv, h1]; norm_num
  exact ⟨hpos, combined_vector_cases.2.2.2.2 [1, 0] [1, 0] hpos⟩

/-- C10: when no qualifying interaction exists
(`calculate_user_vector` returns `none`), the persistence operation
returns `False` and leaves every user record — the stored
`long_term_embedding` and every other field — unchanged. -/
theorem update_user_vector_none_is_noop (users : List UserRecM)
    (rows : List InteractionRow) (uid : ℕ)
    (h : calculateUserVector rows = none) :
    updateUserLongTermVector users rows uid = (false, users) := by
  simp [updateUserLongTermVector, h]

/-- A concrete stored user used by witnesses. -/
def user0 : UserRecM := ⟨1, some [1, 0], [], []⟩

/-- Witness for C10: a user with an empty interaction history. -/
theorem update_user_vector_none_is_noop_witness :
    calculateUserVector [] = none
    ∧ updateUserLongTermVector [user0] [] 1 = (false, [user0]) := by
  have h : calculateUserVector [] = none := by simp [calculateUserVector]
  exact ⟨h, update_user_vector_none_is_noop [user0] [] 1 h⟩

lemma smul_smul_list (a b : ℝ) (v : List ℝ) : smul a (smul b v) = smul (a * b) v := by
  simp only [smul, List.map_map]
  congr 1
  funext x
  simp [Function.comp, mul_assoc]

lemma smul_one_list (v : List ℝ) : smul 1 v = v := by simp [smul]

/-- A single downvote from today on an article embedded at `[1, 0]`:
the failing input for the long-term-vector claim. -/
def downvoteRow : InteractionRow :=
  { itype := "downvote", ageDays := 0, readTime := none, embedding := some [1, 0] }

lemma rowWeight_downvoteRow : rowWeight downvoteRow = -2 := by
  have ht : timeDecay 0 30 = 1 := by
    unfold timeDecay
    norm_num
  unfold rowWeight
  rw [show downvoteRow.ageDays = 0 from rfl, ht]
  norm_num [downvoteRow, interactionWeight, readTimeBoost]

lemma vnorm_one_zero : vnorm [(1 : ℝ), 0] = 1 := by
  norm_num [vnorm, dot, Real.sqrt_one]

lemma vnorm_neg_one_zero : vnorm [(-1 : ℝ), 0] = 1 := by
  norm_num [vnorm, dot, Real.sqrt_one]

/-- C1, behaviour of the code at the failing input: for a user whose
only qualifying interaction is a fresh downvote on an article embedded
at `[1, 0]`, `calculate_user_vector` returns `[1, 0]` — treating the
downvoted article as positive interest — while the specification's
reference definition yields `[-1, 0]`.  The division by the sum of
absolute weights is cancelled by `np.average`'s own division by the
sum of the (signed) weights it receives. -/
theorem user_vector_sign_flip :
    calculateUserVector [downvoteRow] = some [1, 0]
    ∧ calculateUserVectorSpec [downvoteRow] = some [-1, 0] := by
  have hemb : downvoteRow.embedding = some [(1 : ℝ), 0] := rfl
  constructor
  · simp only [calculateUserVector, List.isEmpty_cons, Bool.false_eq_true, if_false,
      List.filter_cons, hemb, Option.isSome_some, if_true, List.filter_nil,
      List.map_cons, List.map_nil, rowWeight_downvoteRow, Option.getD_some,
      List.zipWith_cons_cons, List.zipWith_nil_right, sumVecs, List.sum_cons,
      List.sum_nil, add_zero, List.foldl_nil]
    rw [smul_smul_list]
    have hne : (-2 : ℝ) / (|(-2 : ℝ)| + eps10) ≠ 0 := by
      unfold eps10
      norm_num
    rw [one_div_mul_cancel hne, smul_one_list, vnorm_one_zero, if_pos one_pos]
    norm_num [smul_one_list]
  · simp only [calculateUserVectorSpec, List.isEmpty_cons, Bool.false_eq_true, if_false,
      List.filter_cons, hemb, Option.isSome_some, if_true, List.filter_nil,
      List.map_cons, List.map_nil, rowWeight_downvoteRow, Option.getD_some,
      List.zipWith_cons_cons, List.zipWith_nil_right, sumVecs, List.sum_cons,
      List.sum_nil, add_zero, List.foldl_nil]
    have hv : smul (-2 / |(-2 : ℝ)|) [(1 : ℝ), 0] = [-1, 0] := by
      norm_num [smul]
    rw [hv, vnorm_neg_one_zero]
    norm_num [smul]

/-! ## Ordering by a real-valued key (SQL ORDER BY ... ASC) -/

/-- Insert an element into a list sorted ascending by `key`. -/
noncomputable def insertByKey (key : α → ℝ) (x : α) : List α → List α
  | [] => [x]
  | y :: ys => if key x ≤ key y then x :: y :: ys else y :: insertByKey key x ys

/-- Sort a list ascending by `key`; models `ORDER BY key ASC`. -/
noncomputable def sortByKey (key : α → ℝ) : List α → List α
  | [] => []
  | x :: xs => insertByKey key x (sortByKey key xs)

lemma mem_insertByKey (key : α → ℝ) (x a : α) (l : List α) :
    a ∈ insertByKey key x l ↔ a = x ∨ a ∈ l := by
  induction l with
  | nil => simp [insertByKey]
  | cons y ys ih =>
    rw [insertByKey]
    split
    · simp
    · simp only [List.mem_cons, ih]
      tauto

lemma mem_sortByKey (key : α → ℝ) (a : α) (l : List α) :
    a ∈ sortByKey key l ↔ a ∈ l := by
  induction l with
  | nil => simp [sortByKey]
  | cons y ys ih => rw [sortByKey, mem_insertByKey, ih, List.mem_cons]

lemma length_insertByKey (key : α → ℝ) (x : α) (l : List α) :
    (insertByKey key x l).length = l.length + 1 := by
  induction l with
  | nil => simp [insertByKey]
  | cons y ys ih =>
    rw [insertByKey]
    split
    · simp
    · simp [ih]

lemma length_sortByKey (key : α → ℝ) (l : List α) :
    (sortByKey key l).length = l.length := by
  induction l with
  | nil => simp [sortByKey]
  | cons y ys ih => rw [sortByKey, length_insertByKey, ih, List.length_cons]

/-! ## Feed ranking (backend/app/services/personalization/feed_ranker.py) -/

/-- The similarity value computed inside `_vector_search` and
`_get_adjacent_diverse_articles`:
`np.dot(q, e) / (norm(q) * norm(e) + 1e-10)`. -/
noncomputable def simEps (q e : List ℝ) : ℝ :=
  dot q e / (vnorm q * vnorm e + eps10)

/-- The WHERE conditions assembled by `FeedRanker._vector_search`:
embedding non-null, published in the last 7 days, and — each only when
the corresponding argument is non-empty / positive, exactly as the
Python builds its condition list — source not muted, id not excluded,
credibility at least `minCred`. -/
def vsCond (now : ℚ) (muted : List String) (excl : List ℕ) (minCred : ℤ)
    (a : ArticleM) : Bool :=
  a.embedding.isSome
  && decide (now - 7 ≤ a.publishedAt)
  && (if muted.isEmpty then true else !(muted.contains a.source))
  && (if excl.isEmpty then true else !(excl.contains a.id))
  && (if 0 < minCred then decide (minCred ≤ a.cred) else true)

/-- `FeedRanker._vector_search`: filter, order by pgvector cosine
distance to the query ascending, apply OFFSET and LIMIT, and — when a
similarity range is given — post-filter rows whose `simEps` value lies
in the closed range. -/
noncomputable def vectorSearch (db : List ArticleM) (q : List ℝ) (lim offset : ℕ)
    (muted : List String) (simRange : Option (ℝ × ℝ)) (excl : List ℕ)
    (minCred : ℤ) (now : ℚ) : List ArticleM :=
  let rows := ((sortByKey (fun a => pgCosineDistance (embOf a) q)
      (db.filter (vsCond now muted excl minCred))).drop offset).take lim
  match simRange with
  | none => rows
  | some (lo, hi) => rows.filter (fun a =>
      a.embedding.isSome && decide (lo ≤ simEps q (embOf a))
        && decide (simEps q (embOf a) ≤ hi))

/-- The similarity-band test of `_get_adjacent_diverse_articles`: the
article has an embedding and its `simEps` value to the user vector
lies in the closed interval `[0.4, 0.75]`. -/
noncomputable def keepDiverse (q : List ℝ) (a : ArticleM) : Bool :=
  a.embedding.isSome && decide ((0.4 : ℝ) ≤ simEps q (embOf a))
    && decide (simEps q (embOf a) ≤ (0.75 : ℝ))

/-- The selection loop of `_get_adjacent_diverse_articles`: walk the
candidates, append the ones passing the band test, and break as soon
as `lim` articles have been collected. -/
noncomputable def diverseFilterGo (q : List ℝ) (lim : ℕ) :
    List ArticleM → List ArticleM → List ArticleM
  | [], acc => acc
  | a :: rest, acc =>
      if keepDiverse q a then
        if lim ≤ (acc ++ [a]).length then acc ++ [a]
        else diverseFilterGo q lim rest (acc ++ [a])
      else diverseFilterGo q lim rest acc

/-- `FeedRanker._get_adjacent_diverse_articles`: over-fetch `5 * lim`
candidates restricted to credibility at least 70, run the band
selection loop, and flag every kept article as a blind-spot pick. -/
noncomputable def getAdjacentDiverseArticles (db : List ArticleM) (q : List ℝ)
    (excl : List ℕ) (muted : List String) (lim offset : ℕ) (now : ℚ) :
    List ArticleM :=
  let cands := vectorSearch db q (lim * 5) offset muted none excl 70 now
  (diverseFilterGo q lim cands []).map (fun a => { a with isBlindSpot := true })

/-- `FeedRanker._get_total_count`: count articles published in the
last 7 days, with the muted-source condition added only when the muted
list is non-empty. -/
def getTotalCount (db : List ArticleM) (muted : List String) (now : ℚ) : ℕ :=
  (db.filter (fun a =>
    decide (now - 7 ≤ a.publishedAt)
    && (if muted.isEmpty then true else !(muted.contains a.source)))).length

/-- Modelled from the spec: the number of articles satisfying the main
search's filter set — non-null embedding, published within the last 7
days, source not muted, id not in the already-interacted exclude
set. -/
def mainFilterCount (db : List ArticleM) (muted : List String) (excl : List ℕ)
    (now : ℚ) : ℕ :=
  (db.filter (fun a => a.embedding.isSome && decide (now - 7 ≤ a.publishedAt)
    && !(muted.contains a.source) && !(excl.contains a.id))).length

/-- `FeedRanker.get_personalized_feed`, warm path, given the resolved
combined user vector and the user's already-interacted article ids:
split the limit 75/25 when blind spots are requested, fetch main and
diverse articles, interleave 3:1, and pair with the total count. -/
noncomputable def getPersonalizedFeedWarm (db : List ArticleM) (uvec : List ℝ)
    (viewed : List ℕ) (muted : List String) (lim offset : ℕ)
    (includeBlindSpots : Bool) (now : ℚ) : List ArticleM × ℕ :=
  let mainCount := if includeBlindSpots then lim * (100 - 25) / 100 else lim
  let diverseCount := if includeBlindSpots then lim - mainCount else 0
  let mainArticles := vectorSearch db uvec mainCount offset muted none viewed 0 now
  let diverseArticles :=
    if 0 < diverseCount then
      getAdjacentDiverseArticles db uvec (viewed ++ mainArticles.map (fun a => a.id))
        muted diverseCount (if 0 < offset then offset / lim * diverseCount else 0) now
    else []
  (interleaveArticles mainArticles diverseArticles, getTotalCount db muted now)

/-- A recent article without an embedding: the input separating the
total count from the main search's filter set. -/
def noEmbArticle : ArticleM :=
  { id := 1, embedding := none, publishedAt := 0, fetchedAt := 0,
    source := "site", cred := 80, title := "a", isBlindSpot := false }

/-- C4 (amended): the total count returned by the warm feed path
counts exactly the articles published within the last 7 days whose
source is not muted; it does not require an embedding and does not
remove the user's already-interacted articles. -/
theorem total_count_is_date_and_muted_only :
    ∀ (db : List ArticleM) (uvec : List ℝ) (viewed : List ℕ) (muted : List String)
      (lim offset : ℕ) (ib : Bool) (now : ℚ),
      (getPersonalizedFeedWarm db uvec viewed muted lim offset ib now).2
        = (db.filter (fun a => decide (now - 7 ≤ a.publishedAt)
            && !(muted.contains a.source))).length := by
  intro db uvec viewed muted lim offset ib now
  show getTotalCount db muted now = _
  unfold getTotalCount
  congr 1
  apply List.filter_congr
  intro a _
  cases muted with
  | nil => simp
  | cons m ms => simp

/-- C4 counterexample: with a single recent article lacking an
embedding, the feed's total count is 1 while the main search's filter
set is empty. -/
theorem total_count_differs_from_main_filter_set :
    (getPersonalizedFeedWarm [noEmbArticle] [1, 0] [] [] 20 0 true 0).2 = 1
    ∧ mainFilterCount [noEmbArticle] [] [] 0 = 0 := by
  constructor
  · have h : (getPersonalizedFeedWarm [noEmbArticle] [1, 0] [] [] 20 0 true 0).2
        = getTotalCount [noEmbArticle] [] 0 := rfl
    rw [h]
    have hp : (decide ((0 : ℚ) - 7 ≤ noEmbArticle.publishedAt)
        && (if ([] : List String).isEmpty then true
            else !(([] : List String).contains noEmbArticle.source))) = true := by
      norm_num [noEmbArticle]
    unfold getTotalCount
    rw [List.filter_cons, if_pos hp, List.filter_nil]
    rfl
  · have hp : (noEmbArticle.embedding.isSome
        && decide ((0 : ℚ) - 7 ≤ noEmbArticle.publishedAt)
        && !(([] : List String).contains noEmbArticle.source)
        && !(([] : List ℕ).contains noEmbArticle.id)) = false := by
      simp [show noEmbArticle.embedding = none from rfl]
    unfold mainFilterCount
    rw [List.filter_cons, if_neg (by rw [hp]; exact Bool.false_ne_true), List.filter_nil]
    rfl

/-! ## The diversity band -/

lemma diverseFilterGo_acc (q : List ℝ) (lim : ℕ) :
    ∀ (cands acc : List ArticleM), acc.length < lim →
      diverseFilterGo q lim cands acc
        = acc ++ (cands.filter (keepDiverse q)).take (lim - acc.length) := by
  intro cands
  induction cands with
  | nil => intro acc _; simp [diverseFilterGo]
  | cons a rest ih =>
    intro acc h
    rw [diverseFilterGo, List.filter_cons]
    split
    case isTrue hk =>
      split
      case isTrue hlen =>
        have h1 : lim - acc.length = 1 := by
          simp only [List.length_append, List.length_cons, List.length_nil] at hlen
          omega
        rw [h1]
        simp
      case isFalse hlen =>
        have h2 : (acc ++ [a]).length < lim := by
          simp only [List.length_append, List.length_cons, List.length_nil] at hlen ⊢
          omega
        rw [ih _ h2]
        have h3 : lim - acc.length = (lim - (acc ++ [a]).length) + 1 := by
          simp only [List.length_append, List.length_cons, List.length_nil]
          omega
        rw [h3, List.take_succ_cons, List.append_assoc]
        rfl
    case isFalse hk =>
      exact ih _ h

lemma diverseFilterGo_eq_take (q : List ℝ) (lim : ℕ) (cands : List ArticleM) :
    diverseFilterGo q (lim + 1) cands []
      = (cands.filter (keepDiverse q)).take (lim + 1) := by
  have h := diverseFilterGo_acc q (lim + 1) cands [] (by simp)
  simpa using h

lemma mem_diverseFilterGo (q : List ℝ) (lim : ℕ) :
    ∀ (cands acc : List ArticleM) (a : ArticleM),
      a ∈ diverseFilterGo q lim cands acc → a ∈ acc ∨ a ∈ cands := by
  intro cands
  induction cands with
  | nil => intro acc a h; rw [diverseFilterGo] at h; exact Or.inl h
  | cons b rest ih =>
    intro acc a h
    rw [diverseFilterGo] at h
    split at h
    · split at h
      · simp only [List.mem_append, List.mem_singleton] at h
        rcases h with h | h
        · exact Or.inl h
        · exact Or.inr (by simp [h])
      · rcases ih _ _ h with h1 | h1
        · simp only [List.mem_append, List.mem_singleton] at h1
          rcases h1 with h1 | h1
          · exact Or.inl h1
          · exact Or.inr (by simp [h1])
        · exact Or.inr (List.mem_cons_of_mem _ h1)
    · rcases ih _ _ h with h1 | h1
      · exact Or.inl h1
      · exact Or.inr (List.mem_cons_of_mem _ h1)

lemma vsCond_of_mem_vectorSearch
    {db : List ArticleM} {q : List ℝ} {lim offset : ℕ} {muted : List String}
    {excl : List ℕ} {minCred : ℤ} {now : ℚ} {a : ArticleM}
    (h : a ∈ vectorSearch db q lim offset muted none excl minCred now) :
    vsCond now muted excl minCred a = true := by
  simp only [vectorSearch] at h
  have h1 := List.take_subset _ _ h
  have h2 := List.drop_subset _ _ h1
  rw [mem_sortByKey] at h2
  exact (List.mem_filter.mp h2).2

lemma vnorm_of_dot (v : List ℝ) (r : ℝ) (h0 : 0 ≤ r) (h : dot v v = r * r) :
    vnorm v = r := by
  rw [vnorm, h, Real.sqrt_mul_self h0]

lemma keepDiverse_iff (q : List ℝ) (a : ArticleM) (e : List ℝ)
    (he : a.embedding = some e) :
    keepDiverse q a = true ↔ ((0.4 : ℝ) ≤ simEps q e ∧ simEps q e ≤ 0.75) := by
  simp [keepDiverse, embOf, he, Bool.and_eq_true, decide_eq_true_eq, and_assoc]

/-- Candidate article whose true cosine similarity to `[2,0,0,0,0]` is
exactly 0.75. -/
def artCos75 : ArticleM :=
  { id := 75, embedding := some [6, 5, 1, 1, 1], publishedAt := 0, fetchedAt := 0,
    source := "s75", cred := 90, title := "t", isBlindSpot := false }

/-- Candidate article whose true cosine similarity to `[5,0,0,0]` is
exactly 0.4. -/
def artCos40 : ArticleM :=
  { id := 40, embedding := some [10, 20, 10, 5], publishedAt := 0, fetchedAt := 0,
    source := "s40", cred := 90, title := "t", isBlindSpot := false }

/-- Candidate article whose true cosine similarity to `[5,0,0,0,0]` is
exactly 0.39. -/
def artCos39 : ArticleM :=
  { id := 39, embedding := some [195, 455, 70, 7, 1], publishedAt := 0, fetchedAt := 0,
    source := "s39", cred := 90, title := "t", isBlindSpot := false }

/-- Candidate article whose true cosine similarity to `[5,0,0,0]` is
exactly 0.76. -/
def artCos76 : ArticleM :=
  { id := 76, embedding := some [95, 80, 14, 2], publishedAt := 0, fetchedAt := 0,
    source := "s76", cred := 90, title := "t", isBlindSpot := false }

lemma simEps_cos75 : simEps [(2 : ℝ), 0, 0, 0, 0] [6, 5, 1, 1, 1] = 12 / (16 + eps10) := by
  have hq : vnorm [(2 : ℝ), 0, 0, 0, 0] = 2 :=
    vnorm_of_dot _ 2 (by norm_num) (by norm_num [dot])
  have he : vnorm [(6 : ℝ), 5, 1, 1, 1] = 8 :=
    vnorm_of_dot _ 8 (by norm_num) (by norm_num [dot])
  have hd : dot [(2 : ℝ), 0, 0, 0, 0] [6, 5, 1, 1, 1] = 12 := by norm_num [dot]
  rw [simEps, hq, he, hd]
  norm_num

lemma simEps_cos40 : simEps [(5 : ℝ), 0, 0, 0] [10, 20, 10, 5] = 50 / (125 + eps10) := by
  have hq : vnorm [(5 : ℝ), 0, 0, 0] = 5 :=
    vnorm_of_dot _ 5 (by norm_num) (by norm_num [dot])
  have he : vnorm [(10 : ℝ), 20, 10, 5] = 25 :=
    vnorm_of_dot _ 25 (by norm_num) (by norm_num [dot])
  have hd : dot [(5 : ℝ), 0, 0, 0] [10, 20, 10, 5] = 50 := by norm_num [dot]
  rw [simEps, hq, he, hd]
  norm_num

lemma simEps_cos39 : simEps [(5 : ℝ), 0, 0, 0, 0] [195, 455, 70, 7, 1]
    = 975 / (2500 + eps10) := by
  have hq : vnorm [(5 : ℝ), 0, 0, 0, 0] = 5 :=
    vnorm_of_dot _ 5 (by norm_num) (by norm_num [dot])
  have he : vnorm [(195 : ℝ), 455, 70, 7, 1] = 500 :=
    vnorm_of_dot _ 500 (by norm_num) (by norm_num [dot])
  have hd : dot [(5 : ℝ), 0, 0, 0, 0] [195, 455, 70, 7, 1] = 975 := by norm_num [dot]
  rw [simEps, hq, he, hd]
  norm_num

lemma simEps_cos76 : simEps [(5 : ℝ), 0, 0, 0] [95, 80, 14, 2] = 475 / (625 + eps10) := by
  have hq : vnorm [(5 : ℝ), 0, 0, 0] = 5 :=
    vnorm_of_dot _ 5 (by norm_num) (by norm_num [dot])
  have he : vnorm [(95 : ℝ), 80, 14, 2] = 125 :=
    vnorm_of_dot _ 125 (by norm_num) (by norm_num [dot])
  have hd : dot [(5 : ℝ), 0, 0, 0] [95, 80, 14, 2] = 475 := by norm_num [dot]
  rw [simEps, hq, he, hd]
  norm_num

lemma getAdjacent_all_flagged_credible (db : List ArticleM) (q : List ℝ)
    (excl : List ℕ) (muted : List String) (lim offset : ℕ) (now : ℚ) :
    ((getAdjacentDiverseArticles db q excl muted lim offset now).all
      (fun a => a.isBlindSpot && decide ((70 : ℤ) ≤ a.cred))) = true := by
  rw [List.all_eq_true]
  intro x hx
  simp only [getAdjacentDiverseArticles, List.mem_map] at hx
  obtain ⟨b, hb, rfl⟩ := hx
  rcases mem_diverseFilterGo q lim _ _ b hb with h | h
  · simp at h
  · have hc := vsCond_of_mem_vectorSearch h
    simp only [vsCond, Bool.and_eq_true] at hc
    have h70 : decide ((70 : ℤ) ≤ b.cred) = true := by
      have h2 := hc.2
      rw [if_pos (by norm_num)] at h2
      exact h2
    simp [h70]

lemma getAdjacent_length_le (db : List ArticleM) (q : List ℝ)
    (excl : List ℕ) (muted : List String) (lim offset : ℕ) (now : ℚ) :
    (getAdjacentDiverseArticles db q excl muted (lim + 1) offset now).length
      ≤ lim + 1 := by
  simp only [getAdjacentDiverseArticles, List.length_map, diverseFilterGo_eq_take]
  exact List.length_take_le _ _

/-- C3 (amended): the diversity selection over-fetches `5 * lim`
candidates restricted to source credibility at least 70, keeps — in
order, stopping once `lim` are collected — exactly the candidates
whose computed similarity `dot/(normq * norme + 1e-10)` lies in the
closed band `[0.4, 0.75]`, and flags every kept article as a
transient diversity pick.  Because of the `1e-10` guard the computed
value sits just below the true cosine similarity, so a candidate at
true cosine exactly 0.75 is kept while candidates at 0.39 and 0.76
are excluded (one at exactly 0.4 is excluded too, see the
counterexample theorem). -/
theorem diverse_selection_band :
    (∀ (q : List ℝ) (lim : ℕ) (cands : List ArticleM),
        diverseFilterGo q (lim + 1) cands []
          = (cands.filter (keepDiverse q)).take (lim + 1))
    ∧ (∀ (db : List ArticleM) (q : List ℝ) (excl : List ℕ) (muted : List String)
        (lim offset : ℕ) (now : ℚ),
        ((getAdjacentDiverseArticles db q excl muted lim offset now).all
          (fun a => a.isBlindSpot && decide ((70 : ℤ) ≤ a.cred))) = true)
    ∧ (∀ (db : List ArticleM) (q : List ℝ) (excl : List ℕ) (muted : List String)
        (lim offset : ℕ) (now : ℚ),
        (getAdjacentDiverseArticles db q excl muted (lim + 1) offset now).length
          ≤ lim + 1)
    ∧ (dot [(2 : ℝ), 0, 0, 0, 0] [6, 5, 1, 1, 1]
          / (vnorm [(2 : ℝ), 0, 0, 0, 0] * vnorm [6, 5, 1, 1, 1]) = 0.75
        ∧ keepDiverse [(2 : ℝ), 0, 0, 0, 0] artCos75 = true)
    ∧ (dot [(5 : ℝ), 0, 0, 0, 0] [195, 455, 70, 7, 1]
          / (vnorm [(5 : ℝ), 0, 0, 0, 0] * vnorm [195, 455, 70, 7, 1]) = 0.39
        ∧ keepDiverse [(5 : ℝ), 0, 0, 0, 0] artCos39 = false)
    ∧ (dot [(5 : ℝ), 0, 0, 0] [95, 80, 14, 2]
          / (vnorm [(5 : ℝ), 0, 0, 0] * vnorm [95, 80, 14, 2]) = 0.76
        ∧ keepDiverse [(5 : ℝ), 0, 0, 0] artCos76 = false) := by
  refine ⟨diverseFilterGo_eq_take, getAdjacent_all_flagged_credible,
    getAdjacent_length_le, ⟨?_, ?_⟩, ⟨?_, ?_⟩, ⟨?_, ?_⟩⟩
  · rw [vnorm_of_dot [(2 : ℝ), 0, 0, 0, 0] 2 (by norm_num) (by norm_num [dot]),
      vnorm_of_dot [(6 : ℝ), 5, 1, 1, 1] 8 (by norm_num) (by norm_num [dot])]
    norm_num [dot]
  · refine (keepDiverse_iff _ _ [6, 5, 1, 1, 1] rfl).mpr ⟨?_, ?_⟩ <;>
      rw [simEps_cos75] <;> unfold eps10 <;> norm_num
  · rw [vnorm_of_dot [(5 : ℝ), 0, 0, 0, 0] 5 (by norm_num) (by norm_num [dot]),
      vnorm_of_dot [(195 : ℝ), 455, 70, 7, 1] 500 (by norm_num) (by norm_num [dot])]
    norm_num [dot]
  · cases hval : keepDiverse [(5 : ℝ), 0, 0, 0, 0] artCos39 with
    | false => rfl
    | true =>
      exfalso
      have h := ((keepDiverse_iff _ _ [195, 455, 70, 7, 1] rfl).mp hval).1
      rw [simEps_cos39] at h
      unfold eps10 at h
      norm_num at h
  · rw [vnorm_of_dot [(5 : ℝ), 0, 0, 0] 5 (by norm_num) (by norm_num [dot]),
      vnorm_of_dot [(95 : ℝ), 80, 14, 2] 125 (by norm_num) (by norm_num [dot])]
    norm_num [dot]
  · cases hval : keepDiverse [(5 : ℝ), 0, 0, 0] artCos76 with
    | false => rfl
    | true =>
      exfalso
      have h := ((keepDiverse_iff _ _ [95, 80, 14, 2] rfl).mp hval).2
      rw [simEps_cos76] at h
      unfold eps10 at h
      norm_num at h

/-- C3 counterexample: a candidate whose true cosine similarity to the
user vector is exactly 0.4 is NOT kept by the band test — the `1e-10`
added to the denominator pushes the computed value just below the
lower bound — refuting the claim that a candidate at exactly 0.4 is
kept. -/
theorem exact_low_boundary_excluded :
    dot [(5 : ℝ), 0, 0, 0] [10, 20, 10, 5]
      / (vnorm [(5 : ℝ), 0, 0, 0] * vnorm [10, 20, 10, 5]) = 0.4
    ∧ keepDiverse [(5 : ℝ), 0, 0, 0] artCos40 = false := by
  constructor
  · rw [vnorm_of_dot [(5 : ℝ), 0, 0, 0] 5 (by norm_num) (by norm_num [dot]),
      vnorm_of_dot [(10 : ℝ), 20, 10, 5] 25 (by norm_num) (by norm_num [dot])]
    norm_num [dot]
  · cases hval : keepDiverse [(5 : ℝ), 0, 0, 0] artCos40 with
    | false => rfl
    | true =>
      exfalso
      have h := ((keepDiverse_iff _ _ [10, 20, 10, 5] rfl).mp hval).1
      rw [simEps_cos40] at h
      unfold eps10 at h
      norm_num at h

/-! ## Research cache (backend/app/services/research/cache_manager.py) -/

/-- A `ResearchCache` row, restricted to the fields
`should_invalidate` reads. -/
structure ResearchCacheM where
  articleId : ℕ
  generatedAt : ℚ
  expiresAt : ℚ
  invalidated : Bool
  viewCount : ℕ

/-- The WHERE clause of the subquery in
`CacheManager.should_invalidate`: articles with an embedding, distinct
from the focal article, fetched strictly after the cache entry was
generated. -/
def newSimilarCandidates (db : List ArticleM) (article : ArticleM)
    (entry : ResearchCacheM) : List ArticleM :=
  db.filter (fun a => a.embedding.isSome && !(a.id == article.id)
    && decide (entry.generatedAt < a.fetchedAt))

/-- `CacheManager.should_invalidate`: `False` when the focal article
has no embedding; otherwise order the new candidates by cosine
distance to the focal embedding, keep at most
`invalidation_threshold + 1 = 4` of them, count, and invalidate when
the count reaches the threshold 3. -/
noncomputable def shouldInvalidate (db : List ArticleM) (article : ArticleM)
    (entry : ResearchCacheM) : Bool :=
  match article.embedding with
  | none => false
  | some qe =>
      decide (3 ≤ ((sortByKey (fun a => pgCosineDistance (embOf a) qe)
        (newSimilarCandidates db article entry)).take (3 + 1)).length)

/-- C7: `shouldInvalidate` returns false unconditionally when the
focal article has no embedding, and otherwise returns true exactly
when at least 3 articles fetched strictly after the entry's generation
time occupy the 4 nearest ranks (by cosine distance to the focal
embedding) among the newly fetched articles — which, since ordering
does not change a count, happens exactly when at least 3 such new
articles exist. -/
theorem should_invalidate_characterization :
    ∀ (db : List ArticleM) (article : ArticleM) (entry : ResearchCacheM),
      (article.embedding = none → shouldInvalidate db article entry = false)
      ∧ (∀ qe : List ℝ, article.embedding = some qe →
          (shouldInvalidate db article entry = true ↔
            3 ≤ ((sortByKey (fun a => pgCosineDistance (embOf a) qe)
              (newSimilarCandidates db article entry)).take (3 + 1)).length))
      ∧ (∀ qe : List ℝ,
          3 ≤ ((sortByKey (fun a => pgCosineDistance (embOf a) qe)
              (newSimilarCandidates db article entry)).take (3 + 1)).length
            ↔ 3 ≤ (newSimilarCandidates db article entry).length) := by
  intro db article entry
  refine ⟨?_, ?_, ?_⟩
  · intro h
    simp [shouldInvalidate, h]
  · intro qe h
    simp [shouldInvalidate, h]
  · intro qe
    rw [List.length_take, length_sortByKey]
    omega

/-- Cache entry generated at time 0, used by the C7 witness. -/
def cacheEntry0 : ResearchCacheM :=
  { articleId := 100, generatedAt := 0, expiresAt := 24, invalidated := false,
    viewCount := 1 }

/-- Focal article with an embedding, used by the C7 witness. -/
def focalArt : ArticleM :=
  { id := 100, embedding := some [1, 0], publishedAt := 1, fetchedAt := 1,
    source := "f", cred := 80, title := "focal", isBlindSpot := false }

/-- Three embedded articles fetched after time 0, used by the C7
witness. -/
def newDb3 : List ArticleM :=
  [{ id := 11, embedding := some [1, 0], publishedAt := 1, fetchedAt := 1,
     source := "x1", cred := 80, title := "n1", isBlindSpot := false },
   { id := 12, embedding := some [0, 1], publishedAt := 1, fetchedAt := 1,
     source := "x2", cred := 80, title := "n2", isBlindSpot := false },
   { id := 13, embedding := some [1, 1], publishedAt := 1, fetchedAt := 1,
     source := "x3", cred := 80, title := "n3", isBlindSpot := false }]

/-- Witness for C7: an unembedded focal article is never a trigger,
and three newly fetched embedded articles do trigger invalidation. -/
theorem should_invalidate_characterization_witness :
    shouldInvalidate [] noEmbArticle cacheEntry0 = false
    ∧ shouldInvalidate newDb3 focalArt cacheEntry0 = true := by
  constructor
  · exact (should_invalidate_characterization [] noEmbArticle cacheEntry0).1 rfl
  · have hn : (newSimilarCandidates newDb3 focalArt cacheEntry0).length = 3 := by
      decide
    refine ((should_invalidate_characterization newDb3 focalArt cacheEntry0).2.1
      [1, 0] rfl).mpr ?_
    rw [List.length_take, length_sortByKey, hn]
    simp [min_def]

/-! ## Deep-research retrieval (backend/app/services/research/retriever.py) -/

/-- One `next(...)` step of an iterator in
`Retriever._combine_candidates`: consume the head if present, append
it to the combined list only when its id has not been seen. -/
def consumeOne (src combined : List ArticleM) (seen : List ℕ) :
    List ArticleM × List ArticleM × List ℕ :=
  match src with
  | [] => ([], combined, seen)
  | a :: rest =>
      if seen.contains a.id then (rest, combined, seen)
      else (rest, combined ++ [a], seen ++ [a.id])

/-- The body of `Retriever._combine_candidates`'s `while True` loop
with explicit fuel: two semantic candidates, one entity candidate,
then the break test `len(combined) >= len(similar) + len(entity)`
against the original total.  `none` means the break condition was not
reached within `fuel` iterations. -/
def combineGo (total : ℕ) : ℕ → List ArticleM → List ArticleM → List ArticleM →
    List ℕ → Option (List ArticleM)
  | 0, _, _, _, _ => none
  | fuel + 1, sim, ent, combined, seen =>
      let r1 := consumeOne sim combined seen
      let r2 := consumeOne r1.1 r1.2.1 r1.2.2
      let r3 := consumeOne ent r2.2.1 r2.2.2
      if total ≤ r3.2.1.length then some r3.2.1
      else combineGo total fuel r2.1 r3.1 r3.2.1 r3.2.2

lemma combineGo_stuck (t : ℕ) (c : List ArticleM) (s : List ℕ)
    (h : c.length < t) : ∀ f, combineGo t f [] [] c s = none := by
  intro f
  induction f with
  | zero => rfl
  | succ f ih =>
    rw [combineGo]
    simp only [consumeOne]
    rw [if_neg (by omega)]
    exact ih

/-- An article appearing in both candidate lists, used to exhibit the
non-termination of `_combine_candidates`. -/
def dupArt : ArticleM :=
  { id := 7, embedding := some [1, 0], publishedAt := 0, fetchedAt := 0,
    source := "d", cred := 80, title := "dup", isBlindSpot := false }

/-- C8, behaviour of the code at the failing input: with the same
article in both candidate lists the merge loop never reaches its break
condition — the duplicate is skipped, so the combined list stays
strictly shorter than `len(similar) + len(entity)` — and hence does
not terminate for any amount of fuel, refuting the claim that the
merge terminates for inputs sharing article ids. -/
theorem combine_candidates_nonterminating :
    ∀ fuel : ℕ,
      combineGo ([dupArt].length + [dupArt].length) fuel [dupArt] [dupArt] [] []
        = none := by
  intro fuel
  show combineGo 2 fuel [dupArt] [dupArt] [] [] = none
  cases fuel with
  | zero => rfl
  | succ f =>
    rw [combineGo]
    simp [consumeOne]
    exact combineGo_stuck 2 _ _ (by simp) f

/-! ## Story clustering (backend/app/tasks/cluster_stories.py) -/

/-- A `StoryCluster` row; `firstSeen`/`lastUpdated` are measured in
hours, matching how `_update_cluster` consumes them. -/
structure StoryClusterM where
  id : ℕ
  title : String
  description : String
  firstSeen : ℚ
  lastUpdated : ℚ
  articleCount : ℕ
  isActive : Bool
  status : String
  centroid : Option (List ℝ)

/-- An `ArticleCluster` membership edge. -/
structure ArticleClusterM where
  articleId : ℕ
  clusterId : ℕ
  relevance : ℝ

/-- The cluster tables touched by one clustering pass; `nextId` models
the id the database would assign to the next inserted cluster. -/
structure ClusterState where
  clusters : List StoryClusterM
  links : List ArticleClusterM
  nextId : ℕ

/-- The dictionary returned by `_cluster_articles_async`, with one
optional field per key the Python dict may or may not carry. -/
structure ClusterRunResult where
  message : Option String
  count : Option ℕ
  clustersCreated : Option ℕ
  clustersUpdated : Option ℕ
  articlesProcessed : Option ℕ

/-- The per-row normalization `embeddings / (norms + 1e-10)` performed
before building the distance matrix, and the `/(norm + 1e-10)`
normalization of a group centroid. -/
noncomputable def normEps (v : List ℝ) : List ℝ := smul (1 / (vnorm v + eps10)) v

/-- sklearn's row normalization inside `cosine_distances` (a zero-norm
row is left unscaled). -/
noncomputable def sklNormalize (v : List ℝ) : List ℝ :=
  if vnorm v = 0 then v else smul (1 / vnorm v) v

/-- One entry of sklearn's `cosine_distances` matrix. -/
noncomputable def cosineDistance01 (u v : List ℝ) : ℝ :=
  1 - dot (sklNormalize u) (sklNormalize v)

/-- The precomputed distance-matrix entry for indices `i`, `j`. -/
noncomputable def distMat (embs : List (List ℝ)) (i j : ℕ) : ℝ :=
  cosineDistance01 (embs.getD i []) (embs.getD j [])

/-- DBSCAN eps-neighborhood of point `i` (cosine distance at most
`eps = 0.3`; the point itself is included). -/
noncomputable def dbNeighbors (embs : List (List ℝ)) (i : ℕ) : List ℕ :=
  (List.range embs.length).filter (fun j => decide (distMat embs i j ≤ 0.3))

/-- DBSCAN core test with `min_samples = 5`. -/
noncomputable def isCore (embs : List (List ℝ)) (i : ℕ) : Bool :=
  decide (5 ≤ (dbNeighbors embs i).length)

/-- Breadth-first expansion of one DBSCAN cluster from a seed queue;
non-core members are collected but not expanded. -/
noncomputable def expandCluster (embs : List (List ℝ)) :
    ℕ → List ℕ → List ℕ → List ℕ
  | 0, _, members => members
  | fuel + 1, queue, members =>
      match queue with
      | [] => members
      | j :: rest =>
          if members.contains j then expandCluster embs fuel rest members
          else if isCore embs j then
            expandCluster embs fuel (rest ++ dbNeighbors embs j) (members ++ [j])
          else expandCluster embs fuel rest (members ++ [j])

/-- Scan the points in index order; every unlabeled core point seeds a
new cluster whose reachable, not-yet-labeled points receive the next
label.  Unlabeled non-core points are noise. -/
noncomputable def dbscanAssign (embs : List (List ℝ)) :
    List ℕ → List (ℕ × ℕ) × ℕ → List (ℕ × ℕ) × ℕ
  | [], st => st
  | i :: rest, (labels, next) =>
      if (labels.any (fun p => p.1 == i)) || !(isCore embs i) then
        dbscanAssign embs rest (labels, next)
      else
        let members := expandCluster embs
          ((embs.length + 1) * (embs.length + 1)) [i] []
        dbscanAssign embs rest
          (labels ++ (members.filter
            (fun j => !(labels.any (fun p => p.1 == j)))).map (fun j => (j, next)),
           next + 1)

/-- The member-index groups of the DBSCAN labels, one per label in
label order. -/
noncomputable def dbscanGroups (embs : List (List ℝ)) : List (List ℕ) :=
  let res := dbscanAssign embs (List.range embs.length) ([], 0)
  (List.range res.2).map (fun lab =>
    (List.range embs.length).filter (fun i => res.1.contains (i, lab)))

/-- Pick the element minimizing `key` (the first one on ties); models
the `ORDER BY ... LIMIT 1` of `_find_matching_cluster`. -/
noncomputable def argminByKey (key : α → ℝ) : List α → Option α
  | [] => none
  | x :: xs =>
      match argminByKey key xs with
      | none => some x
      | some y => if key x ≤ key y then some x else some y

/-- `_find_matching_cluster`: nearest active cluster with a centroid
by pgvector cosine distance, returned only if `np.dot` of the two
centroids reaches the threshold. -/
noncomputable def findMatchingCluster (clusters : List StoryClusterM)
    (centroid : List ℝ) (threshold : ℝ) : Option StoryClusterM :=
  match argminByKey (fun c => pgCosineDistance (c.centroid.getD []) centroid)
      (clusters.filter (fun c => c.isActive && c.centroid.isSome)) with
  | none => none
  | some c =>
      if threshold ≤ dot (c.centroid.getD []) centroid then some c else none

/-- `_update_cluster`: link only the group articles not already linked
to the cluster (the existing-id set is computed once, before the
loop), overwrite the centroid, bump the member count by the number of
added links, refresh `last_updated`, and recompute the status from the
cluster age in hours. -/
noncomputable def updateCluster (st : ClusterState) (cluster : StoryClusterM)
    (newArticles : List ArticleM) (newCentroid : List ℝ) (now : ℚ) : ClusterState :=
  let existingIds := (st.links.filter (fun l => l.clusterId == cluster.id)).map
    (fun l => l.articleId)
  let toAdd := newArticles.filter (fun a => !(existingIds.contains a.id))
  { st with
    clusters := st.clusters.map (fun c =>
      if c.id == cluster.id then
        { c with
          lastUpdated := now,
          articleCount := c.articleCount + toAdd.length,
          centroid := some newCentroid,
          status := if now - cluster.firstSeen < 24 then "developing" else "ongoing" }
      else c),
    links := st.links ++ toAdd.map (fun a =>
      ({ articleId := a.id, clusterId := cluster.id, relevance := 1 } : ArticleClusterM)) }

/-- `_create_cluster`: title from the most recently published member
(truncated to 100 characters), `first_seen` from the earliest member,
one link per member article. -/
noncomputable def createCluster (st : ClusterState) (articles : List ArticleM)
    (centroid : List ℝ) (now : ℚ) : ClusterState :=
  let sorted := sortByKey (fun a => -a.publishedAt) articles
  let title := match sorted with
    | [] => ""
    | a :: _ => a.title.take 100
  let firstSeen := match articles.map (fun a => a.publishedAt) with
    | [] => now
    | x :: xs => xs.foldl min x
  { clusters := st.clusters ++
      [{ id := st.nextId, title := title,
         description := "Story with " ++ toString articles.length ++ " related articles",
         firstSeen := firstSeen, lastUpdated := now,
         articleCount := articles.length, isActive := true,
         status := "developing", centroid := some centroid }],
    links := st.links ++ articles.map (fun a =>
      ({ articleId := a.id, clusterId := st.nextId, relevance := 1 } : ArticleClusterM)),
    nextId := st.nextId + 1 }

/-- The centroid of a dense group: mean of the raw member embeddings,
divided by its norm plus `1e-10`. -/
noncomputable def groupCentroid (embs : List (List ℝ)) : List ℝ :=
  normEps (meanVecs embs)

/-- The body of the per-group loop of `_cluster_articles_async`:
groups below `min_samples` are skipped; a group matching an existing
cluster at threshold 0.85 updates it, otherwise a new cluster is
created. -/
noncomputable def processGroup (now : ℚ) (acc : ClusterState × ℕ × ℕ)
    (g : List ArticleM) : ClusterState × ℕ × ℕ :=
  if g.length < 5 then acc
  else
    let centroid := groupCentroid (g.map embOf)
    match findMatchingCluster acc.1.clusters centroid 0.85 with
    | some c => (updateCluster acc.1 c g centroid now, acc.2.1, acc.2.2 + 1)
    | none => (createCluster acc.1 g centroid now, acc.2.1 + 1, acc.2.2)

/-- The per-group loop over all dense groups, carrying the
`(state, clusters_created, clusters_updated)` accumulator. -/
noncomputable def processGroups (now : ℚ) (st : ClusterState)
    (groups : List (List ArticleM)) : ClusterState × ℕ × ℕ :=
  groups.foldl (processGroup now) (st, 0, 0)

/-- Fallback article for indexing, never reached on well-formed
indices. -/
def defaultArticle : ArticleM :=
  { id := 0, embedding := none, publishedAt := 0, fetchedAt := 0,
    source := "", cred := 0, title := "", isBlindSpot := false }

/-- `_cluster_articles_async`: fetch the embedded articles of the last
7 days (most recent first), no-op with a message dict when fewer than
5 exist, otherwise run DBSCAN on the pairwise cosine distances of the
normalized embeddings and reconcile every dense group against the
existing clusters. -/
noncomputable def clusterRecentArticles (st : ClusterState) (db : List ArticleM)
    (now : ℚ) : ClusterRunResult × ClusterState :=
  let articles := sortByKey (fun a => -a.publishedAt)
    (db.filter (fun a => a.embedding.isSome && decide (now - 7 ≤ a.publishedAt)))
  if articles.length < 5 then
    ({ message := some "Not enough articles", count := some articles.length,
       clustersCreated := none, clustersUpdated := none,
       articlesProcessed := none }, st)
  else
    let embs := articles.map embOf
    if embs.length < 5 then
      ({ message := some "Not enough valid embeddings", count := none,
         clustersCreated := none, clustersUpdated := none,
         articlesProcessed := none }, st)
    else
      let groups := (dbscanGroups (embs.map normEps)).map (fun idxs =>
        idxs.map (fun i => articles.getD i defaultArticle))
      let res := processGroups now st groups
      ({ message := none, count := none, clustersCreated := some res.2.1,
         clustersUpdated := some res.2.2,
         articlesProcessed := some articles.length }, res.1)

lemma clusterRecentArticles_underflow (st : ClusterState) (db : List ArticleM)
    (now : ℚ)
    (h : (db.filter (fun a => a.embedding.isSome
        && decide (now - 7 ≤ a.publishedAt))).length < 5) :
    clusterRecentArticles st db now
      = ({ message := some "Not enough articles",
           count := some (db.filter (fun a => a.embedding.isSome
             && decide (now - 7 ≤ a.publishedAt))).length,
           clustersCreated := none, clustersUpdated := none,
           articlesProcessed := none }, st) := by
  simp only [clusterRecentArticles, length_sortByKey]
  rw [if_pos h]

/-- C6 (amended): with fewer than 5 embedded articles in the 7-day
window the clustering pass is a no-op — it returns the dictionary
`{"message": "Not enough articles", "count": n}` (which carries no
`clusters_created`/`clusters_updated` keys), reports the article count
instead of raising, and leaves every cluster and link untouched. -/
theorem clustering_underflow_noop (st : ClusterState) (db : List ArticleM)
    (now : ℚ)
    (h : (db.filter (fun a => a.embedding.isSome
        && decide (now - 7 ≤ a.publishedAt))).length < 5) :
    clusterRecentArticles st db now
      = ({ message := some "Not enough articles",
           count := some (db.filter (fun a => a.embedding.isSome
             && decide (now - 7 ≤ a.publishedAt))).length,
           clustersCreated := none, clustersUpdated := none,
           articlesProcessed := none }, st) :=
  clusterRecentArticles_underflow st db now h

/-- One pre-existing active story cluster with centroid `[1, 0]`. -/
def clusterOne : StoryClusterM :=
  { id := 50, title := "c", description := "", firstSeen := 0, lastUpdated := 0,
    articleCount := 5, isActive := true, status := "developing",
    centroid := some [1, 0] }

/-- Cluster storage holding `clusterOne` and no links. -/
def stOne : ClusterState := { clusters := [clusterOne], links := [], nextId := 60 }

/-- Four embedded recent articles: below the DBSCAN `min_samples`. -/
def db4em : List ArticleM :=
  [{ id := 1, embedding := some [1, 0], publishedAt := 0, fetchedAt := 0,
     source := "a1", cred := 80, title := "t1", isBlindSpot := false },
   { id := 2, embedding := some [1, 0], publishedAt := 0, fetchedAt := 0,
     source := "a2", cred := 80, title := "t2", isBlindSpot := false },
   { id := 3, embedding := some [1, 0], publishedAt := 0, fetchedAt := 0,
     source := "a3", cred := 80, title := "t3", isBlindSpot := false },
   { id := 4, embedding := some [1, 0], publishedAt := 0, fetchedAt := 0,
     source := "a4", cred := 80, title := "t4", isBlindSpot := false }]

lemma db4em_filter : db4em.filter (fun a => a.embedding.isSome
    && decide ((0 : ℚ) - 7 ≤ a.publishedAt)) = db4em := by
  have hc : (decide ((0 : ℚ) - 7 ≤ (0 : ℚ))) = true := by norm_num
  simp [db4em, List.filter_cons, hc]

/-- Witness for C6 at the concrete four-article storage state. -/
theorem clustering_underflow_noop_witness :
    ((db4em.filter (fun a => a.embedding.isSome
        && decide ((0 : ℚ) - 7 ≤ a.publishedAt))).length < 5)
    ∧ clusterRecentArticles stOne db4em 0
      = ({ message := some "Not enough articles",
           count := some (db4em.filter (fun a => a.embedding.isSome
             && decide ((0 : ℚ) - 7 ≤ a.publishedAt))).length,
           clustersCreated := none, clustersUpdated := none,
           articlesProcessed := none }, stOne) := by
  have h : (db4em.filter (fun a => a.embedding.isSome
      && decide ((0 : ℚ) - 7 ≤ a.publishedAt))).length < 5 := by
    rw [db4em_filter]
    norm_num [db4em]
  exact ⟨h, clustering_underflow_noop stOne db4em 0 h⟩

/-- C6 counterexample: the underflow result carries no
`clusters_created` or `clusters_updated` keys at all — it is the
message dictionary `{"message": "Not enough articles", "count": 4}` —
so the pass does not return `{clusters_created: 0,
clusters_updated: 0}`; storage is nevertheless untouched. -/
theorem clustering_underflow_returns_message_dict :
    (clusterRecentArticles stOne db4em 0).1.clustersCreated = none
    ∧ (clusterRecentArticles stOne db4em 0).1.clustersUpdated = none
    ∧ (clusterRecentArticles stOne db4em 0).1.message = some "Not enough articles"
    ∧ (clusterRecentArticles stOne db4em 0).1.count = some 4
    ∧ (clusterRecentArticles stOne db4em 0).2 = stOne := by
  have h : (db4em.filter (fun a => a.embedding.isSome
      && decide ((0 : ℚ) - 7 ≤ a.publishedAt))).length < 5 := by
    rw [db4em_filter]
    norm_num [db4em]
  have he := clusterRecentArticles_underflow stOne db4em 0 h
  rw [he]
  refine ⟨rfl, rfl, rfl, ?_, rfl⟩
  rw [db4em_filter]
  rfl

/-- C5: when the dense group found by a clustering pass matches an
existing cluster (the nearest active centroid reaches dot similarity
0.85, as on a second pass over an unchanged article set), the pass
reports `clusters_created = 0, clusters_updated = 1`, and — because
`_update_cluster` links only articles not already linked to that
cluster — the `(article, cluster)` membership edges remain free of
duplicates. -/
theorem matched_group_updates_cluster
    (st : ClusterState) (g : List ArticleM) (now : ℚ)
    (h5 : 5 ≤ g.length)
    (hmatch : (findMatchingCluster st.clusters
      (groupCentroid (g.map embOf)) 0.85).isSome = true)
    (hg : (g.map (fun a => a.id)).Nodup)
    (hl : (st.links.map (fun l => (l.articleId, l.clusterId))).Nodup) :
    (processGroups now st [g]).2.1 = 0
    ∧ (processGroups now st [g]).2.2 = 1
    ∧ ((processGroups now st [g]).1.links.map
        (fun l => (l.articleId, l.clusterId))).Nodup := by
  obtain ⟨c, hc⟩ := Option.isSome_iff_exists.mp hmatch
  have hpg : processGroups now st [g]
      = (updateCluster st c g (groupCentroid (g.map embOf)) now, 0, 1) := by
    unfold processGroups
    rw [List.foldl_cons, List.foldl_nil]
    unfold processGroup
    rw [if_neg (by omega)]
    simp only [hc]
  rw [hpg]
  refine ⟨rfl, rfl, ?_⟩
  simp only [updateCluster, List.map_append, List.map_map]
  rw [List.nodup_append]
  refine ⟨hl, ?_, ?_⟩
  · have hsub : ((g.filter (fun a =>
        !((((st.links.filter (fun l => l.clusterId == c.id)).map
          (fun l => l.articleId))).contains a.id))).map (fun a => a.id)).Nodup :=
      ((List.filter_sublist g).map (fun a => a.id)).nodup hg
    have heq : (g.filter (fun a =>
        !((((st.links.filter (fun l => l.clusterId == c.id)).map
          (fun l => l.articleId))).contains a.id))).map
          ((fun l : ArticleClusterM => (l.articleId, l.clusterId)) ∘ (fun a =>
            ({ articleId := a.id, clusterId := c.id,
               relevance := 1 } : ArticleClusterM)))
        = ((g.filter (fun a =>
            !((((st.links.filter (fun l => l.clusterId == c.id)).map
              (fun l => l.articleId))).contains a.id))).map (fun a => a.id)).map
            (fun i => (i, c.id)) := by
      rw [List.map_map]
      rfl
    rw [heq]
    exact hsub.map (fun i j hij => by simpa using hij)
  · rw [List.disjoint_left]
    intro p hp hp2
    obtain ⟨l, hlmem, hlp⟩ := List.mem_map.mp hp
    obtain ⟨a, hamem, hap⟩ := List.mem_map.mp hp2
    have hfa := List.mem_filter.mp hamem
    have hidp : a.id = l.articleId ∧ c.id = l.clusterId := by
      have := hap.trans hlp.symm
      simpa [Prod.ext_iff] using this
    have hmem : a.id ∈ (st.links.filter
        (fun l => l.clusterId == c.id)).map (fun l => l.articleId) := by
      refine List.mem_map.mpr ⟨l, ?_, hidp.1.symm⟩
      refine List.mem_filter.mpr ⟨hlmem, ?_⟩
      simp [hidp.2.symm]
    have hfc := hfa.2
    rw [Bool.not_eq_true'] at hfc
    have hct : (List.map (fun l => l.articleId)
        (List.filter (fun l => l.clusterId == c.id) st.links)).contains a.id
          = true := by
      show (List.map (fun l => l.articleId)
        (List.filter (fun l => l.clusterId == c.id) st.links)).elem a.id = true
      rw [List.elem_eq_mem]
      exact decide_eq_true hmem
    rw [hct] at hfc
    simp at hfc

/-- Five embedded articles forming one dense group, used by the C5
witness. -/
def g5 : List ArticleM :=
  [{ id := 1, embedding := some [1, 0], publishedAt := 0, fetchedAt := 0,
     source := "a1", cred := 80, title := "t1", isBlindSpot := false },
   { id := 2, embedding := some [1, 0], publishedAt := 0, fetchedAt := 0,
     source := "a2", cred := 80, title := "t2", isBlindSpot := false },
   { id := 3, embedding := some [1, 0], publishedAt := 0, fetchedAt := 0,
     source := "a3", cred := 80, title := "t3", isBlindSpot := false },
   { id := 4, embedding := some [1, 0], publishedAt := 0, fetchedAt := 0,
     source := "a4", cred := 80, title := "t4", isBlindSpot := false },
   { id := 5, embedding := some [1, 0], publishedAt := 0, fetchedAt := 0,
     source := "a5", cred := 80, title := "t5", isBlindSpot := false }]

lemma g5_centroid : groupCentroid (g5.map embOf) = smul (1 / (1 + eps10)) [1, 0] := by
  have hmap : g5.map embOf = [[(1 : ℝ), 0], [1, 0], [1, 0], [1, 0], [1, 0]] := by
    simp [g5, embOf]
  have hmean : meanVecs [[(1 : ℝ), 0], [1, 0], [1, 0], [1, 0], [1, 0]] = [1, 0] := by
    norm_num [meanVecs, sumVecs, vadd, smul]
  rw [groupCentroid, hmap, hmean, normEps, vnorm_one_zero]

lemma stOne_match : findMatchingCluster stOne.clusters
    (groupCentroid (g5.map embOf)) 0.85 = some clusterOne := by
  have hfil : stOne.clusters.filter (fun c => c.isActive && c.centroid.isSome)
      = [clusterOne] := by
    simp [stOne, clusterOne]
  unfold findMatchingCluster
  rw [hfil]
  have hmin : argminByKey (fun c : StoryClusterM =>
      pgCosineDistance (c.centroid.getD []) (groupCentroid (g5.map embOf)))
      [clusterOne] = some clusterOne := rfl
  simp only [hmin]
  have hdot : dot (clusterOne.centroid.getD [])
      (groupCentroid (g5.map embOf)) = 1 / (1 + eps10) := by
    rw [g5_centroid, show clusterOne.centroid.getD [] = [(1 : ℝ), 0] from rfl]
    simp [dot, smul]
  rw [if_pos (by rw [hdot]; unfold eps10; norm_num)]

/-- Witness for C5: one pre-existing active cluster at centroid
`[1, 0]` with no duplicate links, and a dense group of five articles
all embedded at `[1, 0]`, processed at hour 30. -/
theorem matched_group_updates_cluster_witness :
    5 ≤ g5.length
    ∧ (findMatchingCluster stOne.clusters
        (groupCentroid (g5.map embOf)) 0.85).isSome = true
    ∧ (g5.map (fun a => a.id)).Nodup
    ∧ (stOne.links.map (fun l => (l.articleId, l.clusterId))).Nodup
    ∧ (processGroups 30 stOne [g5]).2.1 = 0
    ∧ (processGroups 30 stOne [g5]).2.2 = 1
    ∧ ((processGroups 30 stOne [g5]).1.links.map
        (fun l => (l.articleId, l.clusterId))).Nodup := by
  have h5 : 5 ≤ g5.length := by simp [g5]
  have hmatch : (findMatchingCluster stOne.clusters
      (groupCentroid (g5.map embOf)) 0.85).isSome = true := by
    rw [stOne_match]
    rfl
  have hg : (g5.map (fun a => a.id)).Nodup := by
    simp [g5]
  have hl : (stOne.links.map (fun l => (l.articleId, l.clusterId))).Nodup := by
    simp [stOne]
  obtain ⟨h1, h2, h3⟩ := matched_group_updates_cluster stOne g5 30 h5 hmatch hg hl
  exact ⟨h5, hmatch, hg, hl, h1, h2, h3⟩

end NewsIQ
